import Mathlib

/-!
Verification development for the Doge Astronaut endless-runner game.

The definitions below are a shallow embedding of the game-logic module
(the useGameLogic hook) and of utils/GameUtils.ts.  JavaScript numbers
are modelled as exact rationals (`ℚ`) where fractional values occur and
as `ℕ`/`ℤ` where the program only ever holds integers.  React state
setters are modelled by explicit state records and pure transition
functions; the queued functional updaters of a single frame are applied
in their queueing order, which is the order React applies them.
-/

namespace Doge

/-! ## GAME_CONFIG constants (utils/GameUtils.ts) -/

def CANVAS_WIDTH : ℚ := 800
def CANVAS_HEIGHT : ℚ := 600
def GRAVITY : ℚ := 1/2
def JUMP_FORCE : ℚ := -11
def GROUND_Y : ℚ := 500
def BASE_SCROLL_SPEED : ℚ := 4
def MAX_SCROLL_SPEED : ℚ := 16
def SPEED_INCREASE_RATE : ℚ := 3/1000
def COIN_VALUE : ℕ := 10

/-- getGameSpeed (utils/GameUtils.ts): speed ramps linearly with the
score and is clamped at MAX_SCROLL_SPEED. -/
def getGameSpeed (score : ℚ) : ℚ :=
  min (BASE_SCROLL_SPEED + score * SPEED_INCREASE_RATE) MAX_SCROLL_SPEED

/-! ## Entity model (types/GameTypes.ts) -/

/-- GameObject: shared shape of all physical objects.  Position and
velocity are inlined as scalar fields. -/
structure GameObject where
  x : ℚ
  y : ℚ
  vx : ℚ
  vy : ℚ
  width : ℚ
  height : ℚ
  active : Bool
deriving DecidableEq, Repr

/-- Player record (types/GameTypes.ts). -/
structure Player extends GameObject where
  isJumping : Bool
  isGrounded : Bool
  jumpCount : ℕ
  maxJumps : ℕ
deriving DecidableEq, Repr

inductive ObstacleType where
  | meteorite | rock | flag
deriving DecidableEq, Repr

/-- Obstacle record (types/GameTypes.ts). -/
structure Obstacle extends GameObject where
  type : ObstacleType
  rotation : ℚ
  rotationSpeed : ℚ
deriving DecidableEq, Repr

/-- Collectible record (types/GameTypes.ts); the only variant tag is
the coin/bone, so the tag field is omitted. -/
structure Collectible extends GameObject where
  collected : Bool
  animation : ℚ
  value : ℕ
  magnetized : Bool
deriving DecidableEq, Repr

/-- checkCollision (utils/GameUtils.ts): axis-aligned bounding-box
overlap with strict inequalities on all four edges. -/
def checkCollision (obj1 obj2 : GameObject) : Bool :=
  decide (obj1.x < obj2.x + obj2.width) &&
  decide (obj1.x + obj1.width > obj2.x) &&
  decide (obj1.y < obj2.y + obj2.height) &&
  decide (obj1.y + obj1.height > obj2.y)

/-- isOffScreen (utils/GameUtils.ts): fully past the left edge with a
100px margin. -/
def isOffScreen (obj : GameObject) : Bool :=
  decide (obj.x + obj.width < -100)

/-! ## Currency exchange (useGameLogic.exchangeForDogevision) -/

/-- Result record returned by exchangeForDogevision. -/
structure ExchangeResult where
  success : Bool
  dogevisionsAdded : ℕ
  osSpent : ℕ
deriving DecidableEq, Repr

/-- The slice of hook state touched by exchangeForDogevision: the two
persistent balances together with their localStorage mirrors. -/
structure CurrencyState where
  totalCoinsCollected : ℕ
  dogevisions : ℕ
  storedTotalCoins : String
  storedDogevisions : String
deriving DecidableEq, Repr

/-- exchangeForDogevision: converts bones to DOGEVISION at
1000 bones = 100 DOGEVISION; the number of exchangeable units is
floor(totalCoinsCollected / 1000). -/
def exchangeForDogevision (s : CurrencyState) : CurrencyState × ExchangeResult :=
  let EXCHANGE_RATE : ℕ := 1000
  let maxExchangeable : ℕ := s.totalCoinsCollected / EXCHANGE_RATE
  if maxExchangeable > 0 then
    let osToSpend := maxExchangeable * EXCHANGE_RATE
    let dogevisionsToAdd := maxExchangeable * 100
    let newTotalCoins := s.totalCoinsCollected - osToSpend
    let newDogevisions := s.dogevisions + dogevisionsToAdd
    ({ totalCoinsCollected := newTotalCoins
       dogevisions := newDogevisions
       storedTotalCoins := toString newTotalCoins
       storedDogevisions := toString newDogevisions },
     { success := true, dogevisionsAdded := dogevisionsToAdd, osSpent := osToSpend })
  else
    (s, { success := false, dogevisionsAdded := 0, osSpent := 0 })

/-! ## Jump (useGameLogic.jump) -/

/-- jump: only takes effect while grounded with jumpCount = 0, in which
case it applies the upward impulse and consumes the single jump. -/
def jump (p : Player) : Player :=
  if p.isGrounded = true ∧ p.jumpCount = 0 then
    { p with
      vy := JUMP_FORCE
      isJumping := true
      isGrounded := false
      jumpCount := 1 }
  else p

/-! ## Weighted collectible placement (useGameLogic.gameLoop spawn block) -/

/-- The eight placement-tier weights of the spawn block, biased toward
easy heights; the last two tiers carry literal weight 0. -/
def difficultyWeights : List ℚ :=
  [45/100, 30/100, 15/100, 5/100, 3/100, 2/100, 0, 0]

/-- The cumulative-weight selection loop of the spawn block: walk the
weights accumulating their sum and stop at the first index whose
cumulative weight reaches the draw; if no cumulative weight does, the
preset index 0 is kept (selectedIndex is initialised to 0 and the loop
never assigns it). -/
def weightedSelectFrom (random : ℚ) : List ℚ → ℚ → ℕ → ℕ
  | [], _, _ => 0
  | w :: rest, cumulativeWeight, i =>
    if random ≤ cumulativeWeight + w then i
    else weightedSelectFrom random rest (cumulativeWeight + w) (i + 1)

/-- Weighted selection over a weight table, as in the spawn block. -/
def weightedSelect (ws : List ℚ) (random : ℚ) : ℕ :=
  weightedSelectFrom random ws 0 0

/-! ## Spawner and world scroll (useGameLogic.gameLoop) -/

/-- The obstacle variants drawn uniformly by the spawner. -/
def obstacleTypes : List ObstacleType :=
  [ObstacleType.meteorite, ObstacleType.rock, ObstacleType.flag]

/-- The eight candidate bone placements of the spawn block, as
world-space (x, y) pairs relative to the current spawn cursor and
obstacle width. -/
def bonePositionOptions (nextObstacleX width : ℚ) : List (ℚ × ℚ) :=
  [ (nextObstacleX + width + 60, GROUND_Y - 60),
    (nextObstacleX + width + 100, GROUND_Y - 60),
    (nextObstacleX + width + 140, GROUND_Y - 60),
    (nextObstacleX + width + 80, GROUND_Y - 75),
    (nextObstacleX + width + 120, GROUND_Y - 75),
    (nextObstacleX + width + 90, GROUND_Y - 90),
    (nextObstacleX + width + 110, GROUND_Y - 90),
    (nextObstacleX + width + 100, GROUND_Y - 105) ]

/-- The random draws consumed by one gameLoop frame: the uniform
obstacle-type index and the weighted placement draw. -/
structure FrameRand where
  typeIdx : Fin 3
  boneDraw : ℚ
deriving DecidableEq, Repr

/-- The slice of hook state read and written by the spawn/scroll/score
part of gameLoop.  The player-physics and particle updates of the same
frame act on disjoint state and are modelled separately.  The three
trailing fields are ghost instrumentation: how many obstacles and
collectibles were ever created, and the world-space x of every spawn
(newest first; an obstacle's world-space x is its screen x plus the
world offset, which equals the spawn cursor at creation time and is
unchanged by the uniform scroll). -/
structure WorldState where
  score : ℕ
  worldOffset : ℚ
  nextObstacleX : ℚ
  obstacles : List Obstacle
  collectibles : List Collectible
  obstaclesCreated : ℕ
  collectiblesCreated : ℕ
  spawnXs : List ℚ
deriving DecidableEq, Repr

/-- One gameLoop frame, restricted to world scroll, spawning, entity
advance/pruning and the per-frame score increment.  React's queued
functional updaters are applied per state variable in queueing order:
the spawn appends run before the scroll map/filter. -/
def gameLoopFrame (rand : FrameRand) (s : WorldState) : WorldState :=
  let newSpeed := getGameSpeed (s.score : ℚ)
  let currentWorldX := s.worldOffset + CANVAS_WIDTH
  let spawned :=
    if currentWorldX ≥ s.nextObstacleX then
      let width : ℚ := 60
      let height : ℚ := 60
      let newObstacle : Obstacle :=
        { x := s.nextObstacleX - s.worldOffset
          y := GROUND_Y - height
          vx := 0, vy := 0
          width := width, height := height
          active := true
          type := obstacleTypes.getD rand.typeIdx.val ObstacleType.meteorite
          rotation := 0, rotationSpeed := 0 }
      let selectedIndex := weightedSelect difficultyWeights rand.boneDraw
      let bonePosition := (bonePositionOptions s.nextObstacleX width).getD selectedIndex (0, 0)
      let newBone : Collectible :=
        { x := bonePosition.1 - s.worldOffset
          y := bonePosition.2
          vx := 0, vy := 0
          width := 65, height := 65
          active := true
          collected := false
          animation := 0
          value := COIN_VALUE
          magnetized := false }
      { s with
        obstacles := s.obstacles ++ [newObstacle]
        collectibles := s.collectibles ++ [newBone]
        nextObstacleX := s.nextObstacleX + width + 200
        obstaclesCreated := s.obstaclesCreated + 1
        collectiblesCreated := s.collectiblesCreated + 1
        spawnXs := s.nextObstacleX :: s.spawnXs }
    else s
  { spawned with
    worldOffset := s.worldOffset + newSpeed
    obstacles :=
      (spawned.obstacles.map fun o => { o with x := o.x - newSpeed }).filter
        (fun o => !isOffScreen o.toGameObject)
    collectibles :=
      (spawned.collectibles.map fun c =>
        { c with x := c.x - newSpeed, animation := c.animation + 8/100 }).filter
        (fun c => !isOffScreen c.toGameObject && c.active)
    score := spawned.score + 1 }

/-- The spawner state set up by startGame: empty collections, world
offset 0, spawn cursor at CANVAS_WIDTH + 100. -/
def initialWorldState : WorldState :=
  { score := 0
    worldOffset := 0
    nextObstacleX := CANVAS_WIDTH + 100
    obstacles := []
    collectibles := []
    obstaclesCreated := 0
    collectiblesCreated := 0
    spawnXs := [] }

/-- Run a list of gameLoop frames in order from a state. -/
def runFrames (frames : List FrameRand) (s : WorldState) : WorldState :=
  frames.foldl (fun t r => gameLoopFrame r t) s

/-- The spawn record (newest first) descends in steps of exactly gap
and the cursor sits exactly gap above the newest spawn. -/
def spawnChain (gap : ℚ) : List ℚ → ℚ → Prop
  | [], _ => True
  | x :: rest, cursor => cursor = x + gap ∧ spawnChain gap rest x

/-- Concrete random draws for evaluating the spawner on an input. -/
def sampleFrameRand : FrameRand :=
  { typeIdx := 1, boneDraw := 1/2 }

/-- A concrete spawner state whose cursor has been reached, so the next
frame spawns. -/
def sampleSpawnState : WorldState :=
  { initialWorldState with worldOffset := 200, score := 50 }

/-! ## Lives, invulnerability and game over (useGameLogic) -/

/-- Duration of the post-hit invulnerability window (the setTimeout
delay in loseLife), in milliseconds. -/
def INVULNERABILITY_MS : ℕ := 2000

/-- GameState record (types/GameTypes.ts). -/
structure GameStateRec where
  isPlaying : Bool
  score : ℕ
  coins : ℕ
  highScore : ℕ
  highCoins : ℕ
  gameOver : Bool
  level : ℕ
deriving DecidableEq, Repr

/-- The slice of hook state touched by loseLife and the gameOver
callback: lives, invulnerability, game state, active powers, the shop
powers' active flags, and the localStorage mirrors of the records.
The pending-timeout field records the delay of the scheduled
end-of-invulnerability callback.  Cosmetic particles are omitted. -/
structure LivesState where
  lives : ℤ
  maxLives : ℤ
  isInvulnerable : Bool
  invulnTimeoutMs : Option ℕ
  game : GameStateRec
  activePowers : List (String × ℤ)
  shopPowersActive : List (String × Bool)
  storedHighScore : String
  storedHighCoins : String
deriving DecidableEq, Repr

/-- gameOver callback: clears all active powers, resets lives and
invulnerability, marks every shop power inactive, stops play, raises
the gameOver flag and persists the updated records. -/
def gameOverStep (s : LivesState) : LivesState :=
  let newHighScore := max s.game.score s.game.highScore
  let newHighCoins := max s.game.coins s.game.highCoins
  { s with
    activePowers := []
    lives := 1
    maxLives := 1
    isInvulnerable := false
    invulnTimeoutMs := none
    shopPowersActive := s.shopPowersActive.map (fun p => (p.1, false))
    game := { s.game with
      isPlaying := false
      gameOver := true
      highScore := newHighScore
      highCoins := newHighCoins }
    storedHighScore := toString newHighScore
    storedHighCoins := toString newHighCoins }

/-- loseLife: ignored while invulnerable; with more than one life left,
decrements lives and schedules a 2000ms invulnerability window;
otherwise invokes the gameOver callback. -/
def loseLife (s : LivesState) : LivesState :=
  if s.isInvulnerable then s
  else if s.lives > 1 then
    { s with
      lives := s.lives - 1
      isInvulnerable := true
      invulnTimeoutMs := some INVULNERABILITY_MS }
  else gameOverStep s

/-- The setTimeout callback scheduled by loseLife: ends the
invulnerability window. -/
def endInvulnerability (s : LivesState) : LivesState :=
  { s with isInvulnerable := false, invulnTimeoutMs := none }

/-- A concrete lives state for scenario D: three lives, not
invulnerable, mid-session. -/
def scenarioDState : LivesState :=
  { lives := 3
    maxLives := 3
    isInvulnerable := false
    invulnTimeoutMs := none
    game := { isPlaying := true, score := 120, coins := 4, highScore := 90,
              highCoins := 9, gameOver := false, level := 1 }
    activePowers := [("three_lives", 5000000)]
    shopPowersActive := [("double_collector", false), ("magnetic_collector", false),
                         ("three_lives", true)]
    storedHighScore := "90"
    storedHighCoins := "9" }

/-! ## Collision pass (useGameLogic collision useEffect) -/

/-- Magnetic auto-collection radius in pixels. -/
def MAGNETIC_RANGE : ℚ := 150

/-- Squared center-to-center distance between the player and a
collectible.  The source computes Math.sqrt of this quantity and
compares the root with MAGNETIC_RANGE; the executable embedding
compares the square with MAGNETIC_RANGE² instead, which is equivalent
because both sides are nonnegative (proved in collisionPass_spec). -/
def centerDistSq (p : Player) (c : Collectible) : ℚ :=
  let dx := (p.x + p.width / 2) - (c.x + c.width / 2)
  let dy := (p.y + p.height / 2) - (c.y + c.height / 2)
  dx * dx + dy * dy

/-- The per-collectible body of the collision pass: an uncollected
active collectible is collected (collectCoin marks it collected and
inactive) when the magnetic power is active and the center distance is
within MAGNETIC_RANGE, or when the power is inactive and the bounding
boxes directly overlap. -/
def collisionPassCoin (isMagneticActive : Bool) (p : Player) (c : Collectible) : Collectible :=
  if c.collected || !c.active then c
  else if (if isMagneticActive then
             decide (centerDistSq p c ≤ MAGNETIC_RANGE * MAGNETIC_RANGE)
           else checkCollision p.toGameObject c.toGameObject) then
    { c with collected := true, active := false }
  else c

/-- A concrete player for evaluating the collision pass: centered at
(30, 35). -/
def magnetPlayer : Player :=
  { x := 0, y := 0, vx := 0, vy := 0, width := 60, height := 70,
    active := true, isJumping := false, isGrounded := true,
    jumpCount := 0, maxJumps := 1 }

/-- A collectible whose center (170, 35) is exactly 140px from the
player's center, with no bounding-box overlap. -/
def magnetCoin140 : Collectible :=
  { x := 275/2, y := 5/2, vx := 0, vy := 0, width := 65, height := 65,
    active := true, collected := false, animation := 0,
    value := 10, magnetized := false }

/-- A collectible whose center (190, 35) is exactly 160px from the
player's center. -/
def magnetCoin160 : Collectible :=
  { x := 315/2, y := 5/2, vx := 0, vy := 0, width := 65, height := 65,
    active := true, collected := false, animation := 0,
    value := 10, magnetized := false }

/-! ## Shop: buying and activating powers (useGameLogic) -/

/-- PowerUp record (types/GameTypes.ts); the cosmetic name,
description and icon strings are omitted.  usesRemaining is the
JavaScript number read from storage, hence an integer option. -/
structure PowerUp where
  id : String
  cost : ℕ
  owned : Bool
  active : Bool
  duration : Option ℕ
  usesRemaining : Option ℤ
  maxUses : Option ℤ
deriving DecidableEq, Repr

/-- The slice of hook state read and written by buyPower and usePower:
the shop, the bone balance, the active-power expiry map, the lives
pair, and localStorage. -/
structure ShopEconState where
  shopOpen : Bool
  availablePowers : List PowerUp
  totalCoinsCollected : ℕ
  activePowers : List (String × ℤ)
  lives : ℤ
  maxLives : ℤ
  storage : List (String × String)
deriving DecidableEq, Repr

/-- localStorage.setItem on an association list. -/
def setItem : List (String × String) → String → String → List (String × String)
  | [], k, v => [(k, v)]
  | (k0, v0) :: rest, k, v =>
    if k0 = k then (k, v) :: rest else (k0, v0) :: setItem rest k v

/-- Insertion into the activePowers map (the spread-update in
usePower). -/
def setPowerExpiry : List (String × ℤ) → String → ℤ → List (String × ℤ)
  | [], k, t => [(k, t)]
  | (k0, t0) :: rest, k, t =>
    if k0 = k then (k, t) :: rest else (k0, t0) :: setPowerExpiry rest k t

/-- The per-power localStorage key chosen by the if/else-if chains of
buyPower and usePower; unknown ids save nothing. -/
def usesStorageKey (powerId : String) : Option String :=
  if powerId = "double_collector" then some "dogeDoubleCollectorUses"
  else if powerId = "magnetic_collector" then some "dogeMagneticCollectorUses"
  else if powerId = "three_lives" then some "dogeThreeLivesUses"
  else none

/-- Persist a power's uses count under its per-power key. -/
def saveUses (storage : List (String × String)) (powerId : String) (uses : ℤ) :
    List (String × String) :=
  match usesStorageKey powerId with
  | some k => setItem storage k (toString uses)
  | none => storage

/-- buyPower: a silent no-op when the power is unknown or the bone
balance is below its cost; otherwise deducts the cost, adds maxUses
uses to the power, persists both, marks the power owned and closes the
shop. -/
def buyPower (s : ShopEconState) (powerId : String) : ShopEconState :=
  match s.availablePowers.find? (fun p => p.id == powerId) with
  | none => s
  | some power =>
    if s.totalCoinsCollected < power.cost then s
    else
      let newTotal := s.totalCoinsCollected - power.cost
      let newUsesRemaining := power.usesRemaining.getD 0 + power.maxUses.getD 1
      { s with
        totalCoinsCollected := newTotal
        storage := saveUses (setItem s.storage "dogeTotalCoins" (toString newTotal))
          powerId newUsesRemaining
        availablePowers := s.availablePowers.map fun p =>
          if p.id == powerId then { p with owned := true, usesRemaining := some newUsesRemaining }
          else p
        shopOpen := false }

/-- usePower: a silent no-op when the power is unknown or its
usesRemaining is falsy (absent or 0) or nonpositive; otherwise records
the expiry timestamp when the power has a truthy duration, the
three_lives power additionally sets lives = maxLives = 3, and one use
is consumed and persisted. -/
def usePower (now : ℤ) (s : ShopEconState) (powerId : String) : ShopEconState :=
  match s.availablePowers.find? (fun p => p.id == powerId) with
  | none => s
  | some power =>
    match power.usesRemaining with
    | none => s
    | some uses =>
      if uses ≤ 0 then s
      else
        let s1 :=
          match power.duration with
          | some d =>
            if d ≠ 0 then
              { s with activePowers := setPowerExpiry s.activePowers powerId (now + (d : ℤ) * 1000) }
            else s
          | none => s
        let s2 := if powerId = "three_lives" then { s1 with lives := 3, maxLives := 3 } else s1
        let newUsesRemaining := uses - 1
        { s2 with
          storage := saveUses s2.storage powerId newUsesRemaining
          availablePowers := s2.availablePowers.map fun p =>
            if p.id == powerId then { p with usesRemaining := some newUsesRemaining, active := true }
            else p }

/-- A concrete shop power with no uses left. -/
def samplePower : PowerUp :=
  { id := "double_collector", cost := 25, owned := false, active := false,
    duration := some 30, usesRemaining := some 0, maxUses := some 2 }

/-- A concrete economy state with 10 bones, below samplePower's cost. -/
def sampleShopState : ShopEconState :=
  { shopOpen := true
    availablePowers := [samplePower]
    totalCoinsCollected := 10
    activePowers := []
    lives := 1
    maxLives := 1
    storage := [("dogeTotalCoins", "10")] }

/-! ## Persistence reads (useGameLogic state initialisers) -/

/-- Decimal digit test for the parseInt model. -/
def isDigitChar (ch : Char) : Bool :=
  decide ('0' ≤ ch) && decide (ch ≤ '9')

/-- Value of the longest decimal-digit prefix; none when there is no
digit (parseInt's NaN case). -/
def digitsPrefixVal (cs : List Char) : Option ℕ :=
  let ds := cs.takeWhile isDigitChar
  if ds.isEmpty then none
  else some (ds.foldl (fun acc ch => acc * 10 + (ch.toNat - 48)) 0)

/-- Model of the JavaScript parseInt builtin on the decimal strings
this program stores: leading whitespace is skipped, an optional sign is
read, then the longest digit prefix is parsed; none models NaN.  (The
hexadecimal 0x-prefix branch of parseInt is not modelled; the program
never stores hexadecimal.) -/
def jsParseInt (s : String) : Option ℤ :=
  let cs := s.data.dropWhile
    (fun ch => decide (ch = ' ') || decide (ch = '\t') || decide (ch = '\n') || decide (ch = '\r'))
  match cs with
  | '-' :: rest => (digitsPrefixVal rest).map (fun n => -(n : ℤ))
  | '+' :: rest => (digitsPrefixVal rest).map (fun n => (n : ℤ))
  | _ => (digitsPrefixVal cs).map (fun n => (n : ℤ))

/-- The common persistence-read pattern of every numeric state
initialiser: parseInt(localStorage.getItem(key) || '0').  A missing
key reads as null and the empty string is falsy, so both fall back to
the literal "0"; any other stored string goes to parseInt as-is. -/
def readStoredNumber (stored : Option String) : Option ℤ :=
  let v :=
    match stored with
    | none => "0"
    | some str => if str = "" then "0" else str
  jsParseInt v

/-! ## Coin collection (useGameLogic.collectCoin) -/

/-- JS truthiness test applied to activePowers entries: the expiry
timestamp must be truthy (nonzero) and later than now. -/
def isPowerActive (activePowers : List (String × ℤ)) (powerId : String) (now : ℤ) : Bool :=
  match activePowers.lookup powerId with
  | some expiry => decide (expiry ≠ 0) && decide (now < expiry)
  | none => false

/-- The slice of hook state read and written by collectCoin. -/
structure CollectState where
  collectibles : List Collectible
  score : ℕ
  coins : ℕ
  totalCoinsCollected : ℕ
  storedTotalCoins : String
  activePowers : List (String × ℤ)
deriving DecidableEq, Repr

/-- collectCoin: a no-op on an already-collected or inactive coin;
otherwise marks the coin collected and inactive (the JS identity test
on the coin is modelled by structural equality), adds its value —
doubled while the double_collector power is active — to the score, and
adds 2 instead of 1 to both the session coin counter and the persisted
bone total while that power is active.  Cosmetic particles are
omitted. -/
def collectCoin (now : ℤ) (coin : Collectible) (s : CollectState) : CollectState :=
  if coin.collected || !coin.active then s
  else
    let collectibles := s.collectibles.map fun c =>
      if c = coin then { c with collected := true, active := false } else c
    let isDoubleCollectorActive := isPowerActive s.activePowers "double_collector" now
    let coinValue := if isDoubleCollectorActive then coin.value * 2 else coin.value
    let coinsToAdd := if isDoubleCollectorActive then 2 else 1
    { s with
      collectibles := collectibles
      score := s.score + coinValue
      coins := s.coins + coinsToAdd
      totalCoinsCollected := s.totalCoinsCollected + coinsToAdd
      storedTotalCoins := toString (s.totalCoinsCollected + coinsToAdd) }

/-- A concrete collection state with the double_collector power active
until timestamp 5000. -/
def sampleCollectState : CollectState :=
  { collectibles := [magnetCoin140]
    score := 100
    coins := 3
    totalCoinsCollected := 42
    storedTotalCoins := "42"
    activePowers := [("double_collector", 5000)] }

end Doge

namespace Doge

/-! ## Theorems -/

/-- C7: for every non-negative score s, the computed scroll speed equals
min(4 + s * 0.003, 16); in particular getGameSpeed 2000 = 10. -/
theorem getGameSpeed_spec (s : ℚ) (hs : 0 ≤ s) :
    getGameSpeed s = min (4 + s * (3/1000)) 16 ∧ getGameSpeed 2000 = 10 := by
  constructor
  · rfl
  · unfold getGameSpeed BASE_SCROLL_SPEED MAX_SCROLL_SPEED SPEED_INCREASE_RATE
    rw [min_def]
    norm_num

/-- Witness for getGameSpeed_spec at s = 2000. -/
theorem getGameSpeed_spec_witness :
    getGameSpeed 2000 = min (4 + 2000 * (3/1000 : ℚ)) 16 ∧ getGameSpeed 2000 = 10 :=
  getGameSpeed_spec 2000 (by norm_num)

/-- C1: exchangeForDogevision computes units = floor(T / 1000); with
units = 0 it returns a failure result with zero amounts and leaves both
balances unchanged; otherwise it returns success with osSpent =
units * 1000 and dogevisionsAdded = units * 100, deducts units * 1000
bones and credits units * 100 DOGEVISION (persisting both). -/
theorem exchangeForDogevision_spec (s : CurrencyState) :
    (s.totalCoinsCollected / 1000 = 0 →
      exchangeForDogevision s = (s, { success := false, dogevisionsAdded := 0, osSpent := 0 })) ∧
    (s.totalCoinsCollected / 1000 ≠ 0 →
      exchangeForDogevision s =
        ({ totalCoinsCollected := s.totalCoinsCollected - (s.totalCoinsCollected / 1000) * 1000
           dogevisions := s.dogevisions + (s.totalCoinsCollected / 1000) * 100
           storedTotalCoins :=
             toString (s.totalCoinsCollected - (s.totalCoinsCollected / 1000) * 1000)
           storedDogevisions :=
             toString (s.dogevisions + (s.totalCoinsCollected / 1000) * 100) },
         { success := true
           dogevisionsAdded := (s.totalCoinsCollected / 1000) * 100
           osSpent := (s.totalCoinsCollected / 1000) * 1000 })) := by
  constructor
  · intro h
    simp [exchangeForDogevision, h]
  · intro h
    have hpos : s.totalCoinsCollected / 1000 > 0 := Nat.pos_of_ne_zero h
    simp [exchangeForDogevision, hpos]

/-- Witness for exchangeForDogevision_spec: a player with 2500 bones
exchanges successfully, spending 2000, gaining 200 DOGEVISION, with 500
bones remaining. -/
theorem exchangeForDogevision_spec_witness :
    exchangeForDogevision
        { totalCoinsCollected := 2500, dogevisions := 0,
          storedTotalCoins := "2500", storedDogevisions := "0" } =
      ({ totalCoinsCollected := 500, dogevisions := 200,
         storedTotalCoins := "500", storedDogevisions := "200" },
       { success := true, dogevisionsAdded := 200, osSpent := 2000 }) := by
  have h := (exchangeForDogevision_spec
    { totalCoinsCollected := 2500, dogevisions := 0,
      storedTotalCoins := "2500", storedDogevisions := "0" }).2 (by decide)
  simpa using h

/-- C6: from a grounded player with jumpCount = 0, jump clears
isGrounded, sets jumpCount to 1 and sets the vertical velocity to the
configured impulse JUMP_FORCE = -11; from any other player state, jump
is the identity. -/
theorem jump_spec (p : Player) :
    (p.isGrounded = true → p.jumpCount = 0 →
      jump p = { p with vy := -11, isJumping := true, isGrounded := false, jumpCount := 1 } ∧
      (jump p).isGrounded = false ∧ (jump p).jumpCount = 1 ∧ (jump p).vy = JUMP_FORCE) ∧
    (¬(p.isGrounded = true ∧ p.jumpCount = 0) → jump p = p) := by
  constructor
  · intro hg hj
    have hcond : p.isGrounded = true ∧ p.jumpCount = 0 := ⟨hg, hj⟩
    refine ⟨?_, ?_, ?_, ?_⟩ <;> simp [jump, hcond, JUMP_FORCE]
  · intro hcond
    simp [jump, hcond]

/-- C4: the cumulative-weight selection over the eight placement tiers
never lands on the two zero-weight tiers (indices 6 and 7) and always
yields a valid index into the 8-entry table; the selected tier's
weight is nonzero. -/
theorem weightedSelect_spec (r : ℚ) (h0 : 0 ≤ r) (h1 : r < 1) :
    weightedSelect difficultyWeights r < 8 ∧
    weightedSelect difficultyWeights r ≠ 6 ∧
    weightedSelect difficultyWeights r ≠ 7 ∧
    difficultyWeights.getD (weightedSelect difficultyWeights r) 0 ≠ 0 := by
  have h5 : weightedSelect difficultyWeights r ≤ 5 := by
    simp only [weightedSelect, difficultyWeights, weightedSelectFrom]
    split_ifs <;> first | (exfalso; linarith) | norm_num
  refine ⟨by omega, by omega, by omega, ?_⟩
  set k := weightedSelect difficultyWeights r with hk
  interval_cases k <;> norm_num [difficultyWeights]

/-- Witness for weightedSelect_spec at the draw r = 1/2. -/
theorem weightedSelect_spec_witness :
    weightedSelect difficultyWeights (1/2) < 8 ∧
    weightedSelect difficultyWeights (1/2) ≠ 6 ∧
    weightedSelect difficultyWeights (1/2) ≠ 7 ∧
    difficultyWeights.getD (weightedSelect difficultyWeights (1/2)) 0 ≠ 0 :=
  weightedSelect_spec (1/2) (by norm_num) (by norm_num)

/-- Helper: equalities for a frame in which the spawn condition holds. -/
theorem gameLoopFrame_spawn_eqs (r : FrameRand) (s : WorldState)
    (h : s.worldOffset + CANVAS_WIDTH ≥ s.nextObstacleX) :
    (gameLoopFrame r s).obstaclesCreated = s.obstaclesCreated + 1 ∧
    (gameLoopFrame r s).collectiblesCreated = s.collectiblesCreated + 1 ∧
    (gameLoopFrame r s).nextObstacleX = s.nextObstacleX + 60 + 200 ∧
    (gameLoopFrame r s).spawnXs = s.nextObstacleX :: s.spawnXs := by
  simp [gameLoopFrame, h]

/-- Helper: equalities for a frame in which the spawn condition fails. -/
theorem gameLoopFrame_noSpawn_eqs (r : FrameRand) (s : WorldState)
    (h : ¬ (s.worldOffset + CANVAS_WIDTH ≥ s.nextObstacleX)) :
    (gameLoopFrame r s).obstaclesCreated = s.obstaclesCreated ∧
    (gameLoopFrame r s).collectiblesCreated = s.collectiblesCreated ∧
    (gameLoopFrame r s).nextObstacleX = s.nextObstacleX ∧
    (gameLoopFrame r s).spawnXs = s.spawnXs := by
  simp [gameLoopFrame, h]

/-- Helper: one frame preserves the spawner invariant (equal creation
counts and the 260-spaced spawn chain anchored at the cursor). -/
theorem spawner_inv_step (r : FrameRand) (s : WorldState)
    (h1 : s.collectiblesCreated = s.obstaclesCreated)
    (h2 : spawnChain 260 s.spawnXs s.nextObstacleX) :
    (gameLoopFrame r s).collectiblesCreated = (gameLoopFrame r s).obstaclesCreated ∧
    spawnChain 260 (gameLoopFrame r s).spawnXs (gameLoopFrame r s).nextObstacleX := by
  by_cases h : s.worldOffset + CANVAS_WIDTH ≥ s.nextObstacleX
  · obtain ⟨ho, hc, hx, hxs⟩ := gameLoopFrame_spawn_eqs r s h
    refine ⟨by rw [ho, hc, h1], ?_⟩
    rw [hx, hxs]
    exact ⟨by ring, h2⟩
  · obtain ⟨ho, hc, hx, hxs⟩ := gameLoopFrame_noSpawn_eqs r s h
    refine ⟨by rw [ho, hc, h1], by rw [hx, hxs]; exact h2⟩

/-- Helper: the spawner invariant holds after any run of frames from an
invariant state. -/
theorem spawner_inv_run (frames : List FrameRand) (s : WorldState)
    (h1 : s.collectiblesCreated = s.obstaclesCreated)
    (h2 : spawnChain 260 s.spawnXs s.nextObstacleX) :
    (runFrames frames s).collectiblesCreated = (runFrames frames s).obstaclesCreated ∧
    spawnChain 260 (runFrames frames s).spawnXs (runFrames frames s).nextObstacleX := by
  induction frames generalizing s with
  | nil => exact ⟨h1, h2⟩
  | cons r rest ih =>
    have hstep := spawner_inv_step r s h1 h2
    simpa [runFrames] using ih (gameLoopFrame r s) hstep.1 hstep.2

/-- Helper: a 260-spaced spawn chain gives pairwise consecutive
spacing of exactly 260 (newest first). -/
theorem spawnChain_pairwise (gap : ℚ) (l : List ℚ) (cursor : ℚ)
    (h : spawnChain gap l cursor) :
    l.Chain' (fun a b => a = b + gap) := by
  induction l generalizing cursor with
  | nil => simp
  | cons x rest ih =>
    cases rest with
    | nil => simp
    | cons y rest2 =>
      obtain ⟨hc, hrest⟩ := h
      rw [List.chain'_cons]
      exact ⟨hrest.1, ih x hrest⟩

/-- C3: each frame that meets the spawn condition creates exactly one
obstacle and exactly one collectible and advances the spawn cursor by
exactly obstacleWidth + 200 = 260; any other frame creates neither and
leaves the cursor alone; hence over any full session the collectible
and obstacle creation counts are equal and consecutive spawns' world-
space x positions differ by exactly 260. -/
theorem spawner_spec (frames : List FrameRand) (r : FrameRand) (s : WorldState) :
    (s.worldOffset + CANVAS_WIDTH ≥ s.nextObstacleX →
      (gameLoopFrame r s).obstaclesCreated = s.obstaclesCreated + 1 ∧
      (gameLoopFrame r s).collectiblesCreated = s.collectiblesCreated + 1 ∧
      (gameLoopFrame r s).nextObstacleX = s.nextObstacleX + 60 + 200) ∧
    (¬ (s.worldOffset + CANVAS_WIDTH ≥ s.nextObstacleX) →
      (gameLoopFrame r s).obstaclesCreated = s.obstaclesCreated ∧
      (gameLoopFrame r s).collectiblesCreated = s.collectiblesCreated ∧
      (gameLoopFrame r s).nextObstacleX = s.nextObstacleX) ∧
    (runFrames frames initialWorldState).collectiblesCreated =
      (runFrames frames initialWorldState).obstaclesCreated ∧
    (runFrames frames initialWorldState).spawnXs.Chain' (fun a b => a = b + 260) := by
  have hrun := spawner_inv_run frames initialWorldState rfl trivial
  refine ⟨?_, ?_, hrun.1, spawnChain_pairwise 260 _ _ hrun.2⟩
  · intro h
    obtain ⟨ho, hc, hx, _⟩ := gameLoopFrame_spawn_eqs r s h
    exact ⟨ho, hc, hx⟩
  · intro h
    obtain ⟨ho, hc, hx, _⟩ := gameLoopFrame_noSpawn_eqs r s h
    exact ⟨ho, hc, hx⟩

/-- Witness for spawner_spec: on a concrete state whose cursor has been
reached, one frame creates one obstacle and one collectible and moves
the cursor from 900 to 1160. -/
theorem spawner_spec_witness :
    (gameLoopFrame sampleFrameRand sampleSpawnState).obstaclesCreated =
      sampleSpawnState.obstaclesCreated + 1 ∧
    (gameLoopFrame sampleFrameRand sampleSpawnState).collectiblesCreated =
      sampleSpawnState.collectiblesCreated + 1 ∧
    (gameLoopFrame sampleFrameRand sampleSpawnState).nextObstacleX =
      sampleSpawnState.nextObstacleX + 60 + 200 :=
  (spawner_spec [] sampleFrameRand sampleSpawnState).1 (by
    norm_num [sampleSpawnState, initialWorldState, CANVAS_WIDTH])

/-- C2: loseLife is a no-op while invulnerable; when vulnerable with
more than one life it decrements lives by exactly one and opens a
2000ms invulnerability window; when vulnerable on the last life it
invokes the gameOver callback; lives never become negative. -/
theorem loseLife_spec (s : LivesState) :
    (s.isInvulnerable = true → loseLife s = s) ∧
    (s.isInvulnerable = false → s.lives > 1 →
      loseLife s =
        { s with
          lives := s.lives - 1
          isInvulnerable := true
          invulnTimeoutMs := some INVULNERABILITY_MS } ∧
      (loseLife s).lives = s.lives - 1 ∧
      (loseLife s).isInvulnerable = true ∧
      INVULNERABILITY_MS = 2000) ∧
    (s.isInvulnerable = false → s.lives = 1 →
      loseLife s = gameOverStep s ∧ (loseLife s).game.gameOver = true) ∧
    (0 ≤ s.lives → 0 ≤ (loseLife s).lives) := by
  refine ⟨?_, ?_, ?_, ?_⟩
  · intro h
    simp [loseLife, h]
  · intro h hl
    refine ⟨?_, ?_, ?_, rfl⟩ <;> simp [loseLife, h, hl]
  · intro h hl
    have hnot : ¬ s.lives > 1 := by omega
    constructor
    · simp [loseLife, h, hnot]
    · simp [loseLife, h, hnot, gameOverStep]
  · intro h0
    unfold loseLife
    split_ifs with h1 h2
    · exact h0
    · show 0 ≤ s.lives - 1
      omega
    · show (0 : ℤ) ≤ (gameOverStep s).lives
      simp [gameOverStep]

/-- Witness for loseLife_spec, scenario D: from three lives a hit
leaves two lives and invulnerability on; a second hit inside the window
changes nothing; after the window elapses a third hit decrements again. -/
theorem loseLife_spec_witness :
    (loseLife scenarioDState).lives = 2 ∧
    (loseLife scenarioDState).isInvulnerable = true ∧
    loseLife (loseLife scenarioDState) = loseLife scenarioDState ∧
    (loseLife (endInvulnerability (loseLife scenarioDState))).lives = 2 - 1 := by
  refine ⟨?_, ?_, ?_, ?_⟩
  · have h := ((loseLife_spec scenarioDState).2.1 rfl (by decide)).2.1
    rw [h]
    decide
  · exact ((loseLife_spec scenarioDState).2.1 rfl (by decide)).2.2.1
  · exact (loseLife_spec (loseLife scenarioDState)).1 (by decide)
  · have h := ((loseLife_spec (endInvulnerability (loseLife scenarioDState))).2.1
      (by decide) (by decide)).2.1
    rw [h]
    decide

/-- Witness for jump_spec: a concrete grounded player jumps as specified. -/
theorem jump_spec_witness :
    (jump { x := 100, y := 430, vx := 0, vy := 0, width := 60, height := 70,
            active := true, isJumping := false, isGrounded := true,
            jumpCount := 0, maxJumps := 1 }).vy = JUMP_FORCE :=
  ((jump_spec _).1 rfl rfl).2.2.2

/-- C5: in the collision pass, an uncollected active collectible is
collected under the magnetic power exactly when the Euclidean distance
between the player's center and its center is at most 150px, and
without the power exactly when the bounding boxes directly overlap. -/
theorem collisionPass_spec (p : Player) (c : Collectible)
    (hc : c.collected = false) (ha : c.active = true) :
    ((collisionPassCoin true p c).collected = true ↔
      Real.sqrt ((((p.x + p.width / 2) - (c.x + c.width / 2) : ℚ) : ℝ) ^ 2 +
        (((p.y + p.height / 2) - (c.y + c.height / 2) : ℚ) : ℝ) ^ 2) ≤ 150) ∧
    ((collisionPassCoin false p c).collected = true ↔
      checkCollision p.toGameObject c.toGameObject = true) := by
  have hbridge :
      Real.sqrt ((((p.x + p.width / 2) - (c.x + c.width / 2) : ℚ) : ℝ) ^ 2 +
          (((p.y + p.height / 2) - (c.y + c.height / 2) : ℚ) : ℝ) ^ 2) ≤ 150 ↔
        centerDistSq p c ≤ MAGNETIC_RANGE * MAGNETIC_RANGE := by
    rw [Real.sqrt_le_left (by norm_num : (0 : ℝ) ≤ 150)]
    have hcast : (((centerDistSq p c : ℚ)) : ℝ) =
        (((p.x + p.width / 2) - (c.x + c.width / 2) : ℚ) : ℝ) ^ 2 +
          (((p.y + p.height / 2) - (c.y + c.height / 2) : ℚ) : ℝ) ^ 2 := by
      simp only [centerDistSq]
      push_cast
      ring
    rw [← hcast, show ((150 : ℝ) ^ 2) = (((MAGNETIC_RANGE * MAGNETIC_RANGE : ℚ)) : ℝ) by
      norm_num [MAGNETIC_RANGE]]
    exact_mod_cast Iff.rfl
  constructor
  · rw [hbridge]
    by_cases hq : centerDistSq p c ≤ MAGNETIC_RANGE * MAGNETIC_RANGE <;>
      simp [collisionPassCoin, hc, ha, hq]
  · by_cases h : checkCollision p.toGameObject c.toGameObject <;>
      simp [collisionPassCoin, hc, ha, h]

/-- Witness for collisionPass_spec: with the magnetic power active a
collectible 140px from the player (no box overlap) is auto-collected;
one 160px away is not. -/
theorem collisionPass_spec_witness :
    (collisionPassCoin true magnetPlayer magnetCoin140).collected = true ∧
    checkCollision magnetPlayer.toGameObject magnetCoin140.toGameObject = false ∧
    (collisionPassCoin true magnetPlayer magnetCoin160).collected = false := by
  refine ⟨?_, ?_, ?_⟩
  · apply ((collisionPass_spec magnetPlayer magnetCoin140 rfl rfl).1).mpr
    rw [Real.sqrt_le_left (by norm_num : (0 : ℝ) ≤ 150)]
    norm_num [magnetPlayer, magnetCoin140]
  · norm_num [checkCollision, magnetPlayer, magnetCoin140]
  · rw [Bool.eq_false_iff]
    intro htrue
    have hd := ((collisionPass_spec magnetPlayer magnetCoin160 rfl rfl).1).mp htrue
    rw [Real.sqrt_le_left (by norm_num : (0 : ℝ) ≤ 150)] at hd
    norm_num [magnetPlayer, magnetCoin160] at hd

/-- C8: usePower on an unknown power, or on one whose usesRemaining is
absent or 0, changes no state; buyPower on an unknown power, or with
the bone balance strictly below the power's cost, changes no state;
both are silent no-ops. -/
theorem power_noop_spec (s : ShopEconState) (powerId : String) (now : ℤ) :
    (s.availablePowers.find? (fun p => p.id == powerId) = none →
      usePower now s powerId = s ∧ buyPower s powerId = s) ∧
    (∀ power, s.availablePowers.find? (fun p => p.id == powerId) = some power →
      power.usesRemaining = none ∨ power.usesRemaining = some 0 →
      usePower now s powerId = s) ∧
    (∀ power, s.availablePowers.find? (fun p => p.id == powerId) = some power →
      s.totalCoinsCollected < power.cost →
      buyPower s powerId = s) := by
  refine ⟨?_, ?_, ?_⟩
  · intro h
    constructor
    · simp [usePower, h]
    · simp [buyPower, h]
  · intro power hfind hu
    rcases hu with h | h <;> simp [usePower, hfind, h]
  · intro power hfind hlt
    simp [buyPower, hfind, hlt]

/-- Witness for power_noop_spec: on a concrete state whose only power
has zero uses and costs more than the balance, both calls return the
state unchanged. -/
theorem power_noop_spec_witness :
    usePower 0 sampleShopState "double_collector" = sampleShopState ∧
    buyPower sampleShopState "double_collector" = sampleShopState :=
  ⟨(power_noop_spec sampleShopState "double_collector" 0).2.1 samplePower
      (by decide) (Or.inr rfl),
   (power_noop_spec sampleShopState "double_collector" 0).2.2 samplePower
      (by decide) (by decide)⟩

/-- C9 counterexample: the stored string "abc" is malformed, yet the
read does not yield 0 — it yields NaN (modelled none), because the ||
fallback replaces only null or empty stored values, while parseInt on
a digitless string is NaN. -/
theorem readStoredNumber_malformed_not_zero :
    readStoredNumber (some "abc") = none ∧ readStoredNumber (some "abc") ≠ some 0 := by
  constructor <;> decide

/-- C9 amended: a read of an absent or empty stored value falls back
to 0; a non-empty stored string on which parseInt finds no integer
yields NaN (none) rather than 0; the read is a total function, so no
parse error is ever propagated. -/
theorem readStoredNumber_spec :
    readStoredNumber none = some 0 ∧
    readStoredNumber (some "") = some 0 ∧
    (∀ str : String, str ≠ "" → jsParseInt str = none →
      readStoredNumber (some str) = none) := by
  refine ⟨by decide, by decide, ?_⟩
  intro str hne hparse
  simp [readStoredNumber, hne, hparse]

/-- Witness for readStoredNumber_spec at the malformed stored string
"oops". -/
theorem readStoredNumber_spec_witness :
    readStoredNumber (some "oops") = none :=
  readStoredNumber_spec.2.2 "oops" (by decide) (by decide)

/-- C10: collecting an uncollected active collectible adds 2 to the
session coin counter and to the persisted bone total and twice the
coin's value to the score while double_collector is active; with the
power inactive it adds 1 to each counter and the base value to the
score. -/
theorem collectCoin_spec (now : ℤ) (coin : Collectible) (s : CollectState)
    (hc : coin.collected = false) (ha : coin.active = true) :
    (isPowerActive s.activePowers "double_collector" now = true →
      (collectCoin now coin s).score = s.score + coin.value * 2 ∧
      (collectCoin now coin s).coins = s.coins + 2 ∧
      (collectCoin now coin s).totalCoinsCollected = s.totalCoinsCollected + 2) ∧
    (isPowerActive s.activePowers "double_collector" now = false →
      (collectCoin now coin s).score = s.score + coin.value ∧
      (collectCoin now coin s).coins = s.coins + 1 ∧
      (collectCoin now coin s).totalCoinsCollected = s.totalCoinsCollected + 1) := by
  constructor <;> intro h <;> simp [collectCoin, hc, ha, h]

/-- Witness for collectCoin_spec: on a concrete state with
double_collector active, collecting a value-10 coin adds 20 points and
2 to both coin counters. -/
theorem collectCoin_spec_witness :
    (collectCoin 0 magnetCoin140 sampleCollectState).score =
      sampleCollectState.score + magnetCoin140.value * 2 ∧
    (collectCoin 0 magnetCoin140 sampleCollectState).coins =
      sampleCollectState.coins + 2 ∧
    (collectCoin 0 magnetCoin140 sampleCollectState).totalCoinsCollected =
      sampleCollectState.totalCoinsCollected + 2 :=
  (collectCoin_spec 0 magnetCoin140 sampleCollectState rfl rfl).1 (by decide)

end Doge
